import Mathlib

/-!
# ScareCrow firmware — verification of the Device Control Core

Shallow embedding of the ESP32 firmware
(`src/esp32/ScareCrowESP32_v2/ScareCrowESP32_v2.ino` with `config.h`, and the
simplified variant in `src/unnamed/part_001`), covering:

* the sensor/cooldown engine of `loop()`;
* the capture/upload pipeline `captureAndUpload` / `uploadImage`;
* the config-sync client `fetchRemoteConfig`;
* the WiFi boot logic of `setup()` / `connectToWiFi`;
* the `StatusLED` non-blocking pattern state machine;
* the deterrent sequencer `activateDeterrent` / `waveServos` / `flashLED` /
  `playAlarm`;
* `loadConfig`'s device-id derivation.

Machine integers are modelled as `Nat`/`Int` with the 32-bit wraparound of
`unsigned long` made explicit (`usub32`, `toUL`) where the C code relies on it.
-/

/-- C `unsigned long` subtraction `a - b` on the firmware's monotone
millisecond clock.  The model keeps absolute (unwrapped) times, so whenever
`b ≤ a` and `a - b < 2^32` this agrees with the hardware computation. -/
def usub32 (a b : Nat) : Nat := (a - b) % 2 ^ 32

/-- Conversion of a C `int` value to `unsigned long` (mod `2^32`). -/
def toUL (x : Int) : Nat := (x % (2 ^ 32 : Int)).toNat

theorem usub32_eq (a b : Nat) (hlt : a - b < 2 ^ 32) :
    usub32 a b = a - b := Nat.mod_eq_of_lt hlt

theorem toUL_of_nonneg (x : Int) (h0 : 0 ≤ x) (hlt : x < 2 ^ 32) :
    toUL x = x.toNat := by
  unfold toUL
  rw [Int.emod_eq_of_lt h0 (by exact_mod_cast hlt)]

/-- Arduino's `constrain(amt, low, high)` macro:
`(amt < low) ? low : ((amt > high) ? high : amt)`. -/
def constrain (amt low high : Int) : Int :=
  if amt < low then low else if amt > high then high else amt

-- `config.h` constants used by the embedded functions.

/-- `#define MIN_COOLDOWN_SEC 60` -/
def MIN_COOLDOWN_SEC : Int := 60

/-- `#define MAX_COOLDOWN_SEC 600` -/
def MAX_COOLDOWN_SEC : Int := 600

/-- `#define DEFAULT_COOLDOWN_SEC 60` -/
def DEFAULT_COOLDOWN_SEC : Int := 60

/-- `#define DEFAULT_SENSOR_TYPE 1` -/
def DEFAULT_SENSOR_TYPE : Int := 1

/-- `#define ANALOG_SENSOR_THRESHOLD 500` -/
def ANALOG_SENSOR_THRESHOLD : Int := 500

/-- The fields of `struct DeviceConfig` that the sensor engine, config-sync
client and deterrent sequencer read and write (v2 firmware, lines 123-147).
The identity/network string fields are irrelevant to those claims and are
modelled separately where needed. -/
structure Config where
  sensorType : Int
  analogThreshold : Int
  cooldownSec : Int
  captureDelayMs : Int
  servoSpeed : Int
  servoAngle : Int
  servoDuration : Int
  ledPattern : String
  ledSpeedMs : Int
  ledDurationSec : Int
  soundType : String
  soundVolume : Int
  soundDurationSec : Int
  autoDeterrent : Bool
deriving Repr, DecidableEq

/-- The sensor/actuator defaults installed by `loadConfig`
(v2 firmware, lines 393-409). -/
def loadConfigDefaults : Config :=
  { sensorType := DEFAULT_SENSOR_TYPE
    analogThreshold := ANALOG_SENSOR_THRESHOLD
    cooldownSec := DEFAULT_COOLDOWN_SEC
    captureDelayMs := 500
    servoSpeed := 90
    servoAngle := 180
    servoDuration := 3
    ledPattern := "blink"
    ledSpeedMs := 200
    ledDurationSec := 5
    soundType := "beep"
    soundVolume := 80
    soundDurationSec := 3
    autoDeterrent := true }

/-- The `config` object of a parsed config-sync response.  A field is `none`
when the key is absent (or not convertible), in which case ArduinoJson's
`doc[key] | default` operator yields the default. -/
structure Payload where
  cooldown_sec : Option Int
  capture_delay_ms : Option Int
  analog_threshold : Option Int
  sensor_type : Option Int
  servo_speed : Option Int
  servo_angle : Option Int
  servo_duration : Option Int
  led_pattern : Option String
  led_speed_ms : Option Int
  led_duration_sec : Option Int
  sound_type : Option String
  sound_volume : Option Int
  sound_duration_sec : Option Int
  auto_deterrent : Option Bool
deriving Repr, DecidableEq

/-- A payload with every key absent. -/
def Payload.empty : Payload :=
  { cooldown_sec := none, capture_delay_ms := none, analog_threshold := none
    sensor_type := none, servo_speed := none, servo_angle := none
    servo_duration := none, led_pattern := none, led_speed_ms := none
    led_duration_sec := none, sound_type := none, sound_volume := none
    sound_duration_sec := none, auto_deterrent := none }

/-- The field-by-field application performed by `fetchRemoteConfig` on the
success path (v2 firmware, lines 953-978).  Note that the sensor settings
default to the *current* config value (`cfg["cooldown_sec"] | config.cooldownSec`)
while every actuator setting defaults to a hardcoded literal
(`cfg["servo_speed"] | 90`, …). -/
def applyPayload (p : Payload) (c : Config) : Config :=
  { c with
    cooldownSec :=
      constrain (p.cooldown_sec.getD c.cooldownSec) MIN_COOLDOWN_SEC MAX_COOLDOWN_SEC
    captureDelayMs := p.capture_delay_ms.getD c.captureDelayMs
    analogThreshold := p.analog_threshold.getD c.analogThreshold
    sensorType := p.sensor_type.getD c.sensorType
    servoSpeed := p.servo_speed.getD 90
    servoAngle := p.servo_angle.getD 180
    servoDuration := p.servo_duration.getD 3
    ledPattern := p.led_pattern.getD "blink"
    ledSpeedMs := p.led_speed_ms.getD 200
    ledDurationSec := p.led_duration_sec.getD 5
    soundType := p.sound_type.getD "beep"
    soundVolume := p.sound_volume.getD 80
    soundDurationSec := p.sound_duration_sec.getD 3
    autoDeterrent := p.auto_deterrent.getD true }

/-- `fetchRemoteConfig` (v2 firmware, lines 936-991).  The HTTP and JSON layers
are abstracted into the observed outcome of one attempt: the returned status
code, whether `deserializeJson` succeeded, the truth value of `doc["success"]`,
and the parsed `config` object.  Returns the new `DeviceConfig` fields together
with the new `serverReachable` flag. -/
def fetchRemoteConfig (connected : Bool) (httpCode : Int) (parseOk : Bool)
    (success : Bool) (p : Payload) (c : Config) (serverReachable : Bool) :
    Config × Bool :=
  if ¬connected then (c, serverReachable)
  else if httpCode = 200 then
    if parseOk ∧ success then (applyPayload p c, true) else (c, true)
  else (c, false)

example :
    (fetchRemoteConfig true 200 true true Payload.empty loadConfigDefaults true).1
      = loadConfigDefaults := by decide

example :
    (fetchRemoteConfig true 404 true true
      { Payload.empty with cooldown_sec := some 5 } loadConfigDefaults true).1
      = loadConfigDefaults := by decide

/-- One observed config-sync attempt: the `isConnected` flag at the time of the
attempt and the outcome of the HTTP GET / JSON parse. -/
structure SyncAttempt where
  connected : Bool
  httpCode : Int
  parseOk : Bool
  success : Bool
  payload : Payload

/-- A sequence of config-sync attempts folded over the in-memory state, as the
main loop performs them every `configFetchInterval`. -/
def runSyncs (attempts : List SyncAttempt) (c : Config) (sr : Bool) :
    Config × Bool :=
  attempts.foldl
    (fun st a =>
      fetchRemoteConfig a.connected a.httpCode a.parseOk a.success a.payload st.1 st.2)
    (c, sr)

theorem constrain_lower (amt low high : Int) (h : low ≤ high) :
    low ≤ constrain amt low high := by
  unfold constrain
  split
  · omega
  · split <;> omega

theorem constrain_upper (amt low high : Int) (h : low ≤ high) :
    constrain amt low high ≤ high := by
  unfold constrain
  split
  · omega
  · split <;> omega

theorem constrain_eq_self (amt low high : Int) (h1 : low ≤ amt) (h2 : amt ≤ high) :
    constrain amt low high = amt := by
  unfold constrain
  split
  · omega
  · split <;> omega

theorem fetchRemoteConfig_cooldown_range (conn : Bool) (code : Int)
    (ok succ : Bool) (p : Payload) (c : Config) (sr : Bool)
    (hlo : MIN_COOLDOWN_SEC ≤ c.cooldownSec) (hhi : c.cooldownSec ≤ MAX_COOLDOWN_SEC) :
    MIN_COOLDOWN_SEC ≤ (fetchRemoteConfig conn code ok succ p c sr).1.cooldownSec ∧
      (fetchRemoteConfig conn code ok succ p c sr).1.cooldownSec ≤ MAX_COOLDOWN_SEC := by
  unfold fetchRemoteConfig
  split
  · exact ⟨hlo, hhi⟩
  · split
    · split
      · refine ⟨?_, ?_⟩
        · exact constrain_lower _ _ _ (by decide)
        · exact constrain_upper _ _ _ (by decide)
      · exact ⟨hlo, hhi⟩
    · exact ⟨hlo, hhi⟩

theorem runSyncs_cooldown_range (attempts : List SyncAttempt) (c : Config) (sr : Bool)
    (hlo : MIN_COOLDOWN_SEC ≤ c.cooldownSec) (hhi : c.cooldownSec ≤ MAX_COOLDOWN_SEC) :
    MIN_COOLDOWN_SEC ≤ (runSyncs attempts c sr).1.cooldownSec ∧
      (runSyncs attempts c sr).1.cooldownSec ≤ MAX_COOLDOWN_SEC := by
  induction attempts generalizing c sr with
  | nil => exact ⟨hlo, hhi⟩
  | cons a rest ih =>
      have h := fetchRemoteConfig_cooldown_range a.connected a.httpCode a.parseOk
        a.success a.payload c sr hlo hhi
      simpa [runSyncs, List.foldl_cons] using
        ih (fetchRemoteConfig a.connected a.httpCode a.parseOk a.success a.payload c sr).1
          (fetchRemoteConfig a.connected a.httpCode a.parseOk a.success a.payload c sr).2
          h.1 h.2

/-- C5: on every applied config-sync update the stored cooldown is clamped into
`[MIN_COOLDOWN_SEC, MAX_COOLDOWN_SEC] = [60, 600]`; the boot default lies in the
same range; hence after any sequence of sync attempts (applied, failed, or
skipped) the in-memory cooldown is never below 60 (in particular never zero)
and never above 600. -/
theorem cooldown_clamped_invariant :
    (MIN_COOLDOWN_SEC ≤ loadConfigDefaults.cooldownSec ∧
       loadConfigDefaults.cooldownSec ≤ MAX_COOLDOWN_SEC) ∧
    (∀ p c, MIN_COOLDOWN_SEC ≤ (applyPayload p c).cooldownSec ∧
       (applyPayload p c).cooldownSec ≤ MAX_COOLDOWN_SEC) ∧
    (∀ attempts c sr,
       MIN_COOLDOWN_SEC ≤ c.cooldownSec → c.cooldownSec ≤ MAX_COOLDOWN_SEC →
         MIN_COOLDOWN_SEC ≤ (runSyncs attempts c sr).1.cooldownSec ∧
           (runSyncs attempts c sr).1.cooldownSec ≤ MAX_COOLDOWN_SEC) := by
  refine ⟨by decide, ?_, ?_⟩
  · intro p c
    refine ⟨constrain_lower _ _ _ (by decide), constrain_upper _ _ _ (by decide)⟩
  · intro attempts c sr hlo hhi
    exact runSyncs_cooldown_range attempts c sr hlo hhi

/-- C5 witness: a malicious payload carrying `cooldown_sec = 0` leaves the
stored cooldown at the lower clamp 60 after a run of three sync attempts. -/
theorem cooldown_clamped_invariant_witness :
    MIN_COOLDOWN_SEC ≤
        (runSyncs
          [⟨true, 200, true, true, { Payload.empty with cooldown_sec := some 0 }⟩,
           ⟨true, 404, true, true, Payload.empty⟩,
           ⟨true, 200, true, true, { Payload.empty with cooldown_sec := some 100000 }⟩]
          loadConfigDefaults true).1.cooldownSec ∧
      (runSyncs
          [⟨true, 200, true, true, { Payload.empty with cooldown_sec := some 0 }⟩,
           ⟨true, 404, true, true, Payload.empty⟩,
           ⟨true, 200, true, true, { Payload.empty with cooldown_sec := some 100000 }⟩]
          loadConfigDefaults true).1.cooldownSec ≤ MAX_COOLDOWN_SEC :=
  cooldown_clamped_invariant.2.2 _ loadConfigDefaults true (by decide) (by decide)

/-- C9: a failed sync attempt — non-200 status, unreachable server (modelled by
the negative `HTTPClient` error codes), JSON parse error, or a payload without
`success = true` — leaves every field of the in-memory config exactly as it
was. -/
theorem fetch_failure_preserves_config (code : Int) (ok succ : Bool)
    (p : Payload) (c : Config) (sr : Bool)
    (hfail : code ≠ 200 ∨ ok = false ∨ succ = false) :
    (fetchRemoteConfig true code ok succ p c sr).1 = c := by
  unfold fetchRemoteConfig
  rcases hfail with h | h | h
  · simp [h]
  · subst h
    split
    · rfl
    · split
      · split
        · simp_all
        · rfl
      · rfl
  · subst h
    split
    · rfl
    · split
      · split
        · simp_all
        · rfl
      · rfl

/-- C9 witness: a parse-error attempt whose payload carries an extreme cooldown
leaves the default config untouched. -/
theorem fetch_failure_preserves_config_witness :
    (fetchRemoteConfig true 200 false true
        { Payload.empty with cooldown_sec := some 99999, servo_speed := some 0 }
        loadConfigDefaults true).1 = loadConfigDefaults :=
  fetch_failure_preserves_config 200 false true _ loadConfigDefaults true
    (Or.inr (Or.inl rfl))

/-- C3 counterexample: after a sync applies `servo_speed = 50`, a later
successful sync whose payload omits `servo_speed` does **not** leave the
previously applied value unchanged — `cfg["servo_speed"] | 90` resets it to the
hardcoded literal 90. -/
theorem missing_servo_speed_not_merged :
    (fetchRemoteConfig true 200 true true
        { Payload.empty with servo_speed := some 50 } loadConfigDefaults true).1.servoSpeed
      = 50 ∧
    (fetchRemoteConfig true 200 true true Payload.empty
        (fetchRemoteConfig true 200 true true
          { Payload.empty with servo_speed := some 50 } loadConfigDefaults true).1
        true).1.servoSpeed = 90 := by
  decide

/-- C3 amended: on a successfully fetched, parsed and accepted response the
update is per-field, but the fallback for an absent field differs by group.
For the SensorState fields (`cooldown_sec`, `capture_delay_ms`,
`analog_threshold`, `sensor_type`) an absent key leaves the previously applied
value unchanged (merge); for every ActuatorProfile field an absent key resets
the value to its firmware literal default (90, 180, 3, "blink", 200, 5,
"beep", 80, 3, true).  A present field updates that field (the cooldown
additionally clamped into `[60, 600]`). -/
theorem sync_merge_semantics (p : Payload) (c : Config)
    (hlo : MIN_COOLDOWN_SEC ≤ c.cooldownSec) (hhi : c.cooldownSec ≤ MAX_COOLDOWN_SEC) :
    ((fetchRemoteConfig true 200 true true p c true).1 = applyPayload p c) ∧
    (p.cooldown_sec = none → (applyPayload p c).cooldownSec = c.cooldownSec) ∧
    (∀ v, p.cooldown_sec = some v →
      (applyPayload p c).cooldownSec = constrain v MIN_COOLDOWN_SEC MAX_COOLDOWN_SEC) ∧
    (p.capture_delay_ms = none → (applyPayload p c).captureDelayMs = c.captureDelayMs) ∧
    (∀ v, p.capture_delay_ms = some v → (applyPayload p c).captureDelayMs = v) ∧
    (p.analog_threshold = none → (applyPayload p c).analogThreshold = c.analogThreshold) ∧
    (∀ v, p.analog_threshold = some v → (applyPayload p c).analogThreshold = v) ∧
    (p.sensor_type = none → (applyPayload p c).sensorType = c.sensorType) ∧
    (∀ v, p.sensor_type = some v → (applyPayload p c).sensorType = v) ∧
    (p.servo_speed = none → (applyPayload p c).servoSpeed = 90) ∧
    (∀ v, p.servo_speed = some v → (applyPayload p c).servoSpeed = v) ∧
    (p.servo_angle = none → (applyPayload p c).servoAngle = 180) ∧
    (∀ v, p.servo_angle = some v → (applyPayload p c).servoAngle = v) ∧
    (p.servo_duration = none → (applyPayload p c).servoDuration = 3) ∧
    (∀ v, p.servo_duration = some v → (applyPayload p c).servoDuration = v) ∧
    (p.led_pattern = none → (applyPayload p c).ledPattern = "blink") ∧
    (∀ v, p.led_pattern = some v → (applyPayload p c).ledPattern = v) ∧
    (p.led_speed_ms = none → (applyPayload p c).ledSpeedMs = 200) ∧
    (∀ v, p.led_speed_ms = some v → (applyPayload p c).ledSpeedMs = v) ∧
    (p.led_duration_sec = none → (applyPayload p c).ledDurationSec = 5) ∧
    (∀ v, p.led_duration_sec = some v → (applyPayload p c).ledDurationSec = v) ∧
    (p.sound_type = none → (applyPayload p c).soundType = "beep") ∧
    (∀ v, p.sound_type = some v → (applyPayload p c).soundType = v) ∧
    (p.sound_volume = none → (applyPayload p c).soundVolume = 80) ∧
    (∀ v, p.sound_volume = some v → (applyPayload p c).soundVolume = v) ∧
    (p.sound_duration_sec = none → (applyPayload p c).soundDurationSec = 3) ∧
    (∀ v, p.sound_duration_sec = some v → (applyPayload p c).soundDurationSec = v) ∧
    (p.auto_deterrent = none → (applyPayload p c).autoDeterrent = true) ∧
    (∀ v, p.auto_deterrent = some v → (applyPayload p c).autoDeterrent = v) := by
  refine ⟨by simp [fetchRemoteConfig], ?_, ?_, ?_, ?_, ?_, ?_, ?_, ?_, ?_, ?_, ?_, ?_,
    ?_, ?_, ?_, ?_, ?_, ?_, ?_, ?_, ?_, ?_, ?_, ?_, ?_, ?_, ?_, ?_⟩ <;>
    first
      | (intro h
         simp [applyPayload, h]
         exact constrain_eq_self _ _ _ hlo hhi)
      | (intro h; simp [applyPayload, h])
      | (intro v h; simp [applyPayload, h])

/-- C3 witness: with the default config, a payload carrying only
`analog_threshold = 700` updates that field, leaves the other sensor fields
unchanged, and resets a previously applied `servoSpeed` to 90. -/
theorem sync_merge_semantics_witness :
    (applyPayload { Payload.empty with analog_threshold := some 700 }
        loadConfigDefaults).analogThreshold = 700 ∧
    (applyPayload { Payload.empty with analog_threshold := some 700 }
        loadConfigDefaults).cooldownSec = loadConfigDefaults.cooldownSec ∧
    (applyPayload { Payload.empty with analog_threshold := some 700 }
        loadConfigDefaults).servoSpeed = 90 := by
  obtain ⟨-, hcool, -, -, -, -, hthr, -, -, hspeed, -⟩ :=
    sync_merge_semantics { Payload.empty with analog_threshold := some 700 }
      loadConfigDefaults (by decide) (by decide)
  exact ⟨hthr 700 rfl, hcool rfl, hspeed rfl⟩

/-- The per-step delay divisor of the servo sweep:
`delay(1000 / config.servoSpeed)` in `waveServos` (v2 firmware, line 1112). -/
def servoStepDelay (c : Config) : Int := 1000 / c.servoSpeed

/-- C4 (bug evidence): `fetchRemoteConfig` clamps only `cooldown_sec`; a remote
payload with `servo_speed = 0` (or a negative value) is installed verbatim, so
the deterrent's per-step delay expression `1000 / servoSpeed` becomes a
division by zero on the device.  (Lean's `/` totalises `1000 / 0` to `0`; in
the C firmware the expression is an integer division by zero.) -/
theorem remote_zero_servo_speed_installed :
    (fetchRemoteConfig true 200 true true
        { Payload.empty with servo_speed := some 0 } loadConfigDefaults true).1.servoSpeed
      = 0 ∧
    (fetchRemoteConfig true 200 true true
        { Payload.empty with servo_speed := some (-5) } loadConfigDefaults
        true).1.servoSpeed = -5 ∧
    servoStepDelay
        (fetchRemoteConfig true 200 true true
          { Payload.empty with servo_speed := some 0 } loadConfigDefaults true).1
      = 0 := by
  decide

/-- One iteration's sensor input as seen by `loop()` (v2 firmware, lines
295-336): the `millis()` reading taken on the motion branch, whether the
sensor read qualified (`digitalRead == HIGH`, resp.
`analogRead >= analogThreshold`), and the `config.cooldownSec` in effect at
that instant (it may have been changed by an interleaved config-sync). -/
structure SensorEvent where
  time : Nat
  motion : Bool
  cooldownSec : Int
deriving Repr, DecidableEq

/-- The trigger-relevant state variables of the main loop. -/
structure SensorLoopState where
  lastMotionDetected : Nat
  detectionCount : Nat
  lastDetectionTime : Nat
deriving Repr, DecidableEq

/-- `unsigned long cooldownMs = (unsigned long)config.cooldownSec * 1000UL;`
(v2 firmware, line 316). -/
def cooldownMsOf (cooldownSec : Int) : Nat := toUL cooldownSec * 1000 % 2 ^ 32

/-- The cooldown gate of `loop()` (v2 firmware, lines 314-336).  Returns the
new state together with `some (time, cooldownSec)` when the trigger is honored
(capture, optional deterrent, counter increment) and `none` when the reading
is ignored. -/
def sensorStep (e : SensorEvent) (s : SensorLoopState) :
    SensorLoopState × Option (Nat × Int) :=
  if e.motion ∧ usub32 e.time s.lastMotionDetected > cooldownMsOf e.cooldownSec then
    ({ lastMotionDetected := e.time
       detectionCount := s.detectionCount + 1
       lastDetectionTime := e.time },
     some (e.time, e.cooldownSec))
  else (s, none)

/-- A run of the main loop over a sequence of sensor events, collecting the
honored triggers in order. -/
def sensorRun : List SensorEvent → SensorLoopState →
    SensorLoopState × List (Nat × Int)
  | [], s => (s, [])
  | e :: rest, s =>
      ((sensorRun rest (sensorStep e s).1).1,
        (sensorStep e s).2.toList ++ (sensorRun rest (sensorStep e s).1).2)

/-- The refractory relation between an earlier honored trigger and the next
one: the separation is at least the cooldown (in ms) in effect at the second
trigger. -/
def CooldownRel (a b : Nat × Int) : Prop := 1000 * toUL b.2 ≤ b.1 - a.1

example :
    (sensorRun
      [⟨100, true, 60⟩, ⟨50000, true, 60⟩, ⟨70000, true, 60⟩, ⟨70100, true, 60⟩]
      ⟨0, 0, 0⟩).2 = [(70000, 60)] := by decide

theorem sensorRun_chain :
    ∀ (events : List SensorEvent) (s : SensorLoopState) (z : Int),
      List.Pairwise (fun a b => a.time ≤ b.time) events →
      (∀ e ∈ events,
        s.lastMotionDetected ≤ e.time ∧ e.time - s.lastMotionDetected < 2 ^ 32) →
      (∀ e ∈ events, 0 ≤ e.cooldownSec ∧ e.cooldownSec ≤ 4294967) →
      List.Chain CooldownRel (s.lastMotionDetected, z) (sensorRun events s).2
  | [], s, z, _, _, _ => by
      simp [sensorRun]
  | e :: rest, s, z, hp, hlb, hcool => by
      have hp' := List.pairwise_cons.mp hp
      have hlbe := hlb e (List.mem_cons_self e rest)
      have hcoole := hcool e (List.mem_cons_self e rest)
      by_cases hcond :
        (e.motion = true) ∧
          usub32 e.time s.lastMotionDetected > cooldownMsOf e.cooldownSec
      · have hstep : sensorStep e s =
            ({ lastMotionDetected := e.time
               detectionCount := s.detectionCount + 1
               lastDetectionTime := e.time },
             some (e.time, e.cooldownSec)) := by
          simp [sensorStep, hcond]
        have husub : usub32 e.time s.lastMotionDetected
            = e.time - s.lastMotionDetected := usub32_eq _ _ hlbe.2
        have htoUL : toUL e.cooldownSec = e.cooldownSec.toNat :=
          toUL_of_nonneg _ hcoole.1 (by omega)
        have hcm : cooldownMsOf e.cooldownSec = e.cooldownSec.toNat * 1000 := by
          unfold cooldownMsOf
          rw [htoUL]
          exact Nat.mod_eq_of_lt (by omega)
        have hrel : CooldownRel (s.lastMotionDetected, z) (e.time, e.cooldownSec) := by
          unfold CooldownRel
          have hgt := hcond.2
          rw [husub, hcm] at hgt
          simp only [htoUL]
          omega
        have htail :=
          sensorRun_chain rest
            { lastMotionDetected := e.time
              detectionCount := s.detectionCount + 1
              lastDetectionTime := e.time } e.cooldownSec hp'.2
            (by
              intro e' he'
              have h1 := hp'.1 e' he'
              have h2 := hlb e' (List.mem_cons_of_mem e he')
              dsimp only
              constructor
              · exact h1
              · omega)
            (fun e' he' => hcool e' (List.mem_cons_of_mem e he'))
        simp only [sensorRun, hstep, Option.toList_some, List.cons_append,
          List.nil_append]
        exact List.Chain.cons hrel htail
      · have hstep : sensorStep e s = (s, none) := by
          simp only [sensorStep]
          rw [if_neg hcond]
        have htail :=
          sensorRun_chain rest s z hp'.2
            (fun e' he' => hlb e' (List.mem_cons_of_mem e he'))
            (fun e' he' => hcool e' (List.mem_cons_of_mem e he'))
        simpa [sensorRun, hstep] using htail

/-- C1: over any run of the main loop in which the millisecond clock is
monotone and spans less than one 32-bit wraparound, any two consecutively
honored triggers `T1`, `T2` are separated by at least the cooldown (converted
to ms) in effect at the time of `T2`, even when the configured cooldown changes
between the two; and a qualifying motion reading arriving while the cooldown
since the last honored trigger has not elapsed is ignored: no state change, no
capture/deterrent dispatch, no counter increment. -/
theorem cooldown_refractory_invariant (events : List SensorEvent)
    (s : SensorLoopState)
    (hsorted : List.Pairwise (fun a b => a.time ≤ b.time) events)
    (hmono : ∀ e ∈ events,
      s.lastMotionDetected ≤ e.time ∧ e.time - s.lastMotionDetected < 2 ^ 32)
    (hcool : ∀ e ∈ events, 0 ≤ e.cooldownSec ∧ e.cooldownSec ≤ 4294967) :
    List.Chain' CooldownRel (sensorRun events s).2 ∧
    (∀ (e : SensorEvent) (t : SensorLoopState), e.motion = true →
      usub32 e.time t.lastMotionDetected ≤ cooldownMsOf e.cooldownSec →
      sensorStep e t = (t, none)) := by
  constructor
  · have h := sensorRun_chain events s 0 hsorted hmono hcool
    have h' : List.Chain' CooldownRel
        ((s.lastMotionDetected, (0 : Int)) :: (sensorRun events s).2) := h
    simpa using h'.tail
  · intro e t hm hle
    have hneg : ¬((e.motion = true) ∧
        usub32 e.time t.lastMotionDetected > cooldownMsOf e.cooldownSec) := by
      rintro ⟨-, hgt⟩
      omega
    simp only [sensorStep]
    rw [if_neg hneg]

/-- C1 witness: a concrete run with a mid-sequence cooldown change (60 s, then
90 s) whose honored triggers satisfy the refractory chain. -/
theorem cooldown_refractory_invariant_witness :
    List.Chain' CooldownRel
      (sensorRun
        [⟨100000, true, 60⟩, ⟨130000, true, 90⟩, ⟨200000, true, 90⟩,
         ⟨295000, true, 90⟩]
        ⟨0, 0, 0⟩).2 :=
  (cooldown_refractory_invariant _ _ (by decide) (by decide) (by decide)).1

/-- The observable steps of one `captureAndUpload` invocation (v2 firmware,
lines 994-1013 and `uploadImage`, lines 1015-1093). -/
inductive PipeAct
  | fbGet (ok : Bool)
  | fbReturn
  | connectAttempt (ok : Bool)
  | sendBody
  | timeoutStop
  | readResponse (success : Bool)
  | stop
deriving Repr, DecidableEq

/-- The environment-determined outcome of one `uploadImage` call: the TCP
connect either fails, or the response wait times out after 10 s, or a response
arrives and is scanned for `"200"`/`"success"`. -/
inductive UploadEnv
  | connectFail
  | respTimeout
  | resp (success : Bool)
deriving Repr, DecidableEq

/-- `uploadImage` (v2 firmware, lines 1015-1093) as the list of its observable
steps.  Note its early `return`s on connect failure and response timeout leave
`uploadImage` only — they do not skip any code in `captureAndUpload`. -/
def uploadImage : UploadEnv → List PipeAct
  | .connectFail => [.connectAttempt false]
  | .respTimeout => [.connectAttempt true, .sendBody, .timeoutStop]
  | .resp ok => [.connectAttempt true, .sendBody, .readResponse ok, .stop]

/-- `captureAndUpload` (v2 firmware, lines 994-1013) as the list of its
observable steps.  `captureOk` is whether `esp_camera_fb_get()` returned a
non-null frame buffer; on `false` the function returns before any use of the
buffer.  When the buffer was acquired, `esp_camera_fb_return(fb)` runs after
the (optional) upload on every path. -/
def captureAndUpload (captureOk connected : Bool) (env : UploadEnv) :
    List PipeAct :=
  if ¬captureOk then [.fbGet false]
  else
    [.fbGet true] ++ (if connected then uploadImage env else []) ++ [.fbReturn]

/-- C2: on every invocation of the capture/upload pipeline — upload success,
capture failure, connect failure, or response timeout — the frame buffer is
released exactly once when acquisition succeeded and never when acquisition
failed; no path leaks or double-releases it. -/
theorem frame_buffer_released_exactly_once (captureOk connected : Bool)
    (env : UploadEnv) :
    (captureAndUpload captureOk connected env).count PipeAct.fbReturn
      = if captureOk then 1 else 0 := by
  cases captureOk <;> cases connected <;> cases env <;>
    simp [captureAndUpload, uploadImage, List.count_cons, List.count_append]

/-- The polling loop of `connectToWiFi` (v2 firmware, lines 439-448):
`while (WiFi.status() != WL_CONNECTED && attempts < 40) { delay(500); ... }`.
`st` gives the link state as a function of elapsed milliseconds since
`WiFi.begin`; `remaining` counts the iterations still allowed
(`40 - attempts`).  Returns the final `WiFi.status() == WL_CONNECTED` check
together with the elapsed time at exit. -/
def wifiPoll (st : Nat → Bool) : Nat → Nat → Bool × Nat
  | 0, elapsed => if st elapsed then (true, elapsed) else (false, elapsed)
  | r + 1, elapsed =>
      if st elapsed then (true, elapsed) else wifiPoll st r (elapsed + 500)

/-- `connectToWiFi` (v2 firmware, lines 432-449): up to 40 polls at 500 ms
intervals — a 20 s bounded timeout. -/
def connectToWiFi (st : Nat → Bool) : Bool × Nat := wifiPoll st 40 0

/-- The network-relevant boot actions of `setup()` (v2 firmware, lines
232-271). -/
inductive BootEvent
  | connectAttempt
  | portalStart
  | statusServer
deriving Repr, DecidableEq

/-- The WiFi branch of `setup()` (v2 firmware, lines 232-271): with a stored
SSID the device calls `connectToWiFi` once and either starts the status server
(success) or starts the captive portal (failure); with no stored SSID it
starts the captive portal directly. -/
def setupNet (ssid : String) (st : Nat → Bool) : List BootEvent :=
  if ssid.length > 0 then
    if (connectToWiFi st).1 then [.connectAttempt, .statusServer]
    else [.connectAttempt, .portalStart]
  else [.portalStart]

theorem wifiPoll_elapsed (st : Nat → Bool) :
    ∀ remaining elapsed,
      (wifiPoll st remaining elapsed).2 ≤ elapsed + 500 * remaining := by
  intro remaining
  induction remaining with
  | zero =>
      intro elapsed
      unfold wifiPoll
      split <;> simp
  | succ r ih =>
      intro elapsed
      unfold wifiPoll
      split
      · simp
      · have h := ih (elapsed + 500)
        omega

/-- C6: at boot, empty stored WiFi credentials send the device straight to the
provisioning portal with no connection attempt; stored credentials that fail to
produce a link within the bounded 20 s polling window (40 polls at 500 ms)
cause exactly one transition to the portal after exactly one connection
attempt — there is no retry loop — and the polling never runs past 20 s of
delays. -/
theorem provisioning_fallback (ssid : String) (st : Nat → Bool) :
    (ssid.length = 0 → setupNet ssid st = [.portalStart]) ∧
    (ssid.length > 0 → (connectToWiFi st).1 = false →
      (setupNet ssid st).count BootEvent.portalStart = 1 ∧
      (setupNet ssid st).count BootEvent.connectAttempt = 1 ∧
      setupNet ssid st = [.connectAttempt, .portalStart]) ∧
    (connectToWiFi st).2 ≤ 20000 := by
  refine ⟨?_, ?_, ?_⟩
  · intro h
    simp [setupNet, h]
  · intro hlen hfail
    simp [setupNet, hlen, hfail]
  · have h := wifiPoll_elapsed st 40 0
    simpa [connectToWiFi] using h

/-- C6 witness: a link that never comes up — boot with credentials makes one
attempt then one portal start; boot without credentials goes straight to the
portal. -/
theorem provisioning_fallback_witness :
    setupNet "" (fun _ => false) = [.portalStart] ∧
    setupNet "homenet" (fun _ => false) = [.connectAttempt, .portalStart] ∧
    (connectToWiFi (fun _ => false)).2 ≤ 20000 :=
  ⟨(provisioning_fallback "" (fun _ => false)).1 rfl,
   ((provisioning_fallback "homenet" (fun _ => false)).2.1 (by decide)
     (by decide)).2.2,
   (provisioning_fallback "" (fun _ => false)).2.2⟩

/-- One digit of C's `%X` (uppercase hexadecimal) formatting. -/
def hexDigit (n : Nat) : Char :=
  if n < 10 then Char.ofNat (48 + n) else Char.ofNat (55 + n)

/-- `%04X`: four zero-padded uppercase hex digits. -/
def hex4 (n : Nat) : String :=
  String.mk [hexDigit (n / 4096 % 16), hexDigit (n / 256 % 16),
    hexDigit (n / 16 % 16), hexDigit (n % 16)]

/-- `snprintf(config.deviceId, ..., "SCARECROW-%04X", (uint16_t)(chipId & 0xFFFF))`
(v2 firmware, line 390) as a function of the eFuse MAC. -/
def genDeviceId (mac : Nat) : String := "SCARECROW-" ++ hex4 (mac % 65536)

/-- The device-id part of `loadConfig` (v2 firmware, lines 375-391): the value
loaded from the preferences store (default `""`), regenerated from the MAC
when empty. -/
def loadConfigDeviceId (stored : String) (mac : Nat) : String :=
  if stored.length = 0 then genDeviceId mac else stored

/-- The device id in use after a boot, given the content of the persistent
store's `deviceId` key (`none` when the key is absent, e.g. after
`preferences.clear()`). -/
def bootId (store : Option String) (mac : Nat) : String :=
  loadConfigDeviceId (store.getD "") mac

/-- The `deviceId` key contents producible by this firmware: absent (first
boot or factory reset), or the id of an earlier boot persisted by
`saveConfig`. -/
inductive StoreReach (mac : Nat) : Option String → Prop
  | init : StoreReach mac none
  | saved (st : Option String) : StoreReach mac st →
      StoreReach mac (some (bootId st mac))

theorem hex4_length (n : Nat) : (hex4 n).length = 4 := rfl

theorem genDeviceId_length (mac : Nat) : (genDeviceId mac).length = 14 := by
  have h : ("SCARECROW-" : String).length = 10 := rfl
  simp [genDeviceId, String.length_append, hex4_length, h]

theorem bootId_reachable (mac : Nat) :
    ∀ store, StoreReach mac store → bootId store mac = genDeviceId mac := by
  intro store h
  induction h with
  | init => rfl
  | saved st _ ih =>
      rw [ih]
      simp only [bootId, loadConfigDeviceId, Option.getD_some]
      rw [if_neg (by rw [genDeviceId_length]; omega)]

/-- C10: when the persistent store holds no `deviceId`, `loadConfig` derives it
as the pure function `genDeviceId` of the eFuse MAC ("SCARECROW-" followed by
the low 16 bits in hexadecimal, which depend only on `mac % 2^16`);
consequently, after a factory reset that clears every stored key, the
regenerated id equals the id in use before the reset, for any store content
this firmware can have produced. -/
theorem device_id_stable_across_reset (mac : Nat) :
    bootId none mac = genDeviceId mac ∧
    genDeviceId mac = genDeviceId (mac % 2 ^ 16) ∧
    (∀ store, StoreReach mac store → bootId store mac = bootId none mac) := by
  refine ⟨rfl, ?_, ?_⟩
  · simp [genDeviceId, Nat.mod_mod_of_dvd]
  · intro store h
    rw [bootId_reachable mac store h]
    rfl

/-- C10 witness: a device that booted once with an empty store, saved its id,
and was then factory reset regenerates the identical id (MAC `0xA1BEEF`). -/
theorem device_id_stable_across_reset_witness :
    bootId (some (bootId none 10600175)) 10600175 = bootId none 10600175 ∧
    bootId none 10600175 = "SCARECROW-BEEF" :=
  ⟨(device_id_stable_across_reset 10600175).2.2 _
      (StoreReach.saved none StoreReach.init),
   by decide⟩

/-- Observable actuator commands of the firmware (LED pin writes, servo
writes, buzzer tone control) plus the blocking `delay(ms)` call. -/
inductive Act
  | servo1Write (angle : Int)
  | servo2Write (angle : Int)
  | ledWrite (b : Bool)
  | toneStart (freq : Int) (durn : Nat)
  | toneStop
  | delayMs (ms : Nat)
deriving Repr, DecidableEq

/-- The private state of the `StatusLED` class (v2 firmware, lines 38-52),
minus the fixed pin number.  Field order follows the C declaration. -/
structure LedState where
  ledState : Bool
  lastUpdate : Nat
  onTime : Nat
  offTime : Nat
  blinkCount : Int
  currentBlinks : Int
  patternActive : Bool
deriving Repr, DecidableEq

/-- The member state after the `StatusLED` constructor (v2 firmware,
lines 50-52). -/
def statusLedInit : LedState :=
  { ledState := false, lastUpdate := 0, onTime := 0, offTime := 0
    blinkCount := -1, currentBlinks := 0, patternActive := false }

/-- `StatusLED::setPattern(on, off, count)` (v2 firmware, lines 59-68),
invoked at time `now` (= `millis()`). -/
def LedState.setPattern (s : LedState) (onT offT : Nat) (count : Int)
    (now : Nat) : LedState × List Act :=
  ({ s with
      onTime := onT, offTime := offT, blinkCount := count,
      currentBlinks := 0, patternActive := true, lastUpdate := now,
      ledState := true },
   [Act.ledWrite true])

/-- `StatusLED::update()` (v2 firmware, lines 80-102), invoked at time `now`.
Pure state transition plus the emitted pin writes; the function contains no
`delay` call. -/
def LedState.update (s : LedState) (now : Nat) : LedState × List Act :=
  if s.patternActive = false then (s, [])
  else if usub32 now s.lastUpdate ≥ (if s.ledState then s.onTime else s.offTime) then
    if s.ledState = true ∧ s.blinkCount > 0 then
      if s.currentBlinks + 1 ≥ s.blinkCount then
        ({ s with
            lastUpdate := now, currentBlinks := s.currentBlinks + 1,
            patternActive := false, ledState := false },
         [Act.ledWrite false])
      else
        ({ s with
            lastUpdate := now, currentBlinks := s.currentBlinks + 1,
            ledState := !s.ledState },
         [Act.ledWrite (!s.ledState)])
    else
      ({ s with lastUpdate := now, ledState := !s.ledState },
       [Act.ledWrite (!s.ledState)])
  else (s, [])

/-- Number of LED pin writes (state transitions) in an action list. -/
def countLedWrites (l : List Act) : Nat :=
  l.countP (fun a => match a with | Act.ledWrite _ => true | _ => false)

/-- A sequence of `update()` calls at the given `millis()` instants,
accumulating the number of LED transitions. -/
def ledRun : List Nat → LedState → LedState × Nat
  | [], s => (s, 0)
  | t :: ts, s =>
      ((ledRun ts (s.update t).1).1,
        countLedWrites (s.update t).2 + (ledRun ts (s.update t).1).2)

theorem update_no_delay (s : LedState) (now : Nat) (m : Nat) :
    Act.delayMs m ∉ (s.update now).2 := by
  unfold LedState.update
  repeat' split
  all_goals simp

theorem update_noFire (s : LedState) (t P : Nat) (hact : s.patternActive = true)
    (hon : s.onTime = P) (hoff : s.offTime = P) (hlt : t - s.lastUpdate < P) :
    s.update t = (s, []) := by
  unfold LedState.update
  rw [if_neg (by simp [hact])]
  rw [if_neg]
  have hmod : usub32 t s.lastUpdate ≤ t - s.lastUpdate := Nat.mod_le _ _
  rw [hon, hoff, ite_self]
  omega

theorem update_fire (s : LedState) (now P : Nat) (hact : s.patternActive = true)
    (hon : s.onTime = P) (hoff : s.offTime = P) (hblink : s.blinkCount = -1)
    (hge : P ≤ now - s.lastUpdate) (hlt : now - s.lastUpdate < 2 ^ 32) :
    s.update now
      = ({ s with lastUpdate := now, ledState := !s.ledState },
         [Act.ledWrite (!s.ledState)]) := by
  unfold LedState.update
  rw [if_neg (by simp [hact])]
  rw [if_pos (by rw [usub32_eq _ _ hlt, hon, hoff, ite_self]; exact hge)]
  rw [if_neg (by rw [hblink]; rintro ⟨-, h⟩; omega)]

theorem ledRun_noFire (P : Nat) : ∀ (times : List Nat) (s : LedState),
    s.patternActive = true → s.onTime = P → s.offTime = P →
    (∀ t ∈ times, t - s.lastUpdate < P) →
    ledRun times s = (s, 0)
  | [], s, _, _, _, _ => rfl
  | t :: ts, s, hact, hon, hoff, hts => by
      have h0 := update_noFire s t P hact hon hoff (hts t (List.mem_cons_self t ts))
      have hrest := ledRun_noFire P ts s hact hon hoff
        (fun u hu => hts u (List.mem_cons_of_mem t hu))
      simp [ledRun, h0, hrest, countLedWrites]

theorem ledRun_append : ∀ (l1 l2 : List Nat) (s : LedState),
    ledRun (l1 ++ l2) s
      = ((ledRun l2 (ledRun l1 s).1).1,
         (ledRun l1 s).2 + (ledRun l2 (ledRun l1 s).1).2)
  | [], l2, s => by simp [ledRun]
  | t :: ts, l2, s => by
      have ih := ledRun_append ts l2 (s.update t).1
      simp [ledRun, ih]
      omega

theorem ledRun_block (m δ P : Nat) (hδ : 0 < δ) (hP : P = (m + 1) * δ)
    (hlt : P < 2 ^ 32) (s : LedState) (T : Nat)
    (hact : s.patternActive = true) (hon : s.onTime = P) (hoff : s.offTime = P)
    (hblink : s.blinkCount = -1) (hlast : s.lastUpdate = T) :
    ledRun ((List.range (m + 1)).map (fun j => T + (j + 1) * δ)) s
      = ({ s with lastUpdate := T + P, ledState := !s.ledState }, 1) := by
  rw [List.range_succ, List.map_append, ledRun_append]
  have hfirst : ledRun ((List.range m).map (fun j => T + (j + 1) * δ)) s = (s, 0) := by
    apply ledRun_noFire P _ s hact hon hoff
    intro t ht
    obtain ⟨j, hj, rfl⟩ := List.mem_map.mp ht
    have hjm := List.mem_range.mp hj
    rw [hlast]
    have hsub : T + (j + 1) * δ - T = (j + 1) * δ := by omega
    rw [hsub]
    have h1 : (j + 1) * δ ≤ m * δ := Nat.mul_le_mul_right δ (by omega)
    have h2 : P = m * δ + δ := by rw [hP, Nat.succ_mul]
    omega
  rw [hfirst]
  have htime : T + (m + 1) * δ = T + P := by rw [hP]
  have hfire := update_fire s (T + P) P hact hon hoff hblink
    (by rw [hlast]; omega) (by rw [hlast]; omega)
  simp [ledRun, htime, hfire, countLedWrites]

theorem ledRun_blocks (δ q P : Nat) (hδ : 0 < δ) (hq : 0 < q)
    (hP : P = q * δ) (hlt : P < 2 ^ 32) :
    ∀ (N : Nat) (T : Nat) (s : LedState),
      s.patternActive = true → s.onTime = P → s.offTime = P →
      s.blinkCount = -1 → s.lastUpdate = T →
      (ledRun ((List.range (N * q)).map (fun i => T + (i + 1) * δ)) s).2 = N ∧
      (ledRun ((List.range (N * q)).map (fun i => T + (i + 1) * δ)) s).1.patternActive
        = true ∧
      (ledRun ((List.range (N * q)).map (fun i => T + (i + 1) * δ)) s).1.onTime = P ∧
      (ledRun ((List.range (N * q)).map (fun i => T + (i + 1) * δ)) s).1.offTime = P ∧
      (ledRun ((List.range (N * q)).map (fun i => T + (i + 1) * δ)) s).1.blinkCount
        = -1 ∧
      (ledRun ((List.range (N * q)).map (fun i => T + (i + 1) * δ)) s).1.lastUpdate
        = T + N * P := by
  intro N
  induction N with
  | zero =>
      intro T s hact hon hoff hblink hlast
      simp [ledRun, hact, hon, hoff, hblink, hlast]
  | succ N ih =>
      intro T s hact hon hoff hblink hlast
      obtain ⟨m, rfl⟩ : ∃ m, q = m + 1 := ⟨q - 1, by omega⟩
      have hsplit : (N + 1) * (m + 1) = (m + 1) + N * (m + 1) := by ring
      rw [hsplit, List.range_add, List.map_append, List.map_map]
      have hfun : ((fun i => T + (i + 1) * δ) ∘ fun i => (m + 1) + i)
          = fun i => (T + P) + (i + 1) * δ := by
        funext i
        simp only [Function.comp]
        rw [hP]
        ring
      rw [hfun, ledRun_append,
        ledRun_block m δ P hδ hP hlt s T hact hon hoff hblink hlast]
      have ihs := ih (T + P)
        { s with lastUpdate := T + P, ledState := !s.ledState }
        hact hon hoff hblink rfl
      refine ⟨?_, ihs.2.1, ihs.2.2.1, ihs.2.2.2.1, ihs.2.2.2.2.1, ?_⟩
      · simp only [ihs.1]
        omega
      · rw [ihs.2.2.2.2.2]
        ring

/-- C7: `StatusLED::update` never issues a blocking `delay` — it changes the
LED only via elapsed-time comparison against `millis()` — and for a continuous
pattern with equal on/off interval `P = q * δ` started at `t0` on any prior
LED state, ticking every `δ` ms over the window of `N * P` ms after the
pattern start produces exactly `N` LED on/off transitions. -/
theorem statusled_nonblocking_exact_transitions (δ q N t0 : Nat) (s0 : LedState)
    (hδ : 0 < δ) (hq : 0 < q) (hlt : q * δ < 2 ^ 32) :
    (∀ (s : LedState) (now m : Nat), Act.delayMs m ∉ (s.update now).2) ∧
    (ledRun ((List.range (N * q)).map (fun i => t0 + (i + 1) * δ))
        (s0.setPattern (q * δ) (q * δ) (-1) t0).1).2 = N := by
  constructor
  · exact update_no_delay
  · exact (ledRun_blocks δ q (q * δ) hδ hq rfl hlt N t0
      (s0.setPattern (q * δ) (q * δ) (-1) t0).1 rfl rfl rfl rfl rfl).1

/-- C7 witness: slow-blink (1000 ms on / 1000 ms off) ticked every 100 ms over
5 s yields exactly 5 transitions. -/
theorem statusled_nonblocking_exact_transitions_witness :
    (ledRun ((List.range (5 * 10)).map (fun i => 0 + (i + 1) * 100))
        (statusLedInit.setPattern (10 * 100) (10 * 100) (-1) 0).1).2 = 5 :=
  (statusled_nonblocking_exact_transitions 100 10 5 0 statusLedInit
    (by decide) (by decide) (by decide)).2

/-- Hardware state threaded through the deterrent sequencer: the `millis()`
clock (advanced by the blocking `delay` calls the sequencer is allowed to
make), the last commanded servo angles, the LED pin level, whether the buzzer
is active, and a most-recent-first timestamped trace of all commands. -/
structure HW where
  time : Nat
  servo1 : Int
  servo2 : Int
  led : Bool
  buzzer : Bool
  trace : List (Nat × Act)
deriving Repr, DecidableEq

/-- `delay(ms)`. -/
def HW.delayW (w : HW) (ms : Nat) : HW :=
  { w with time := w.time + ms, trace := (w.time, Act.delayMs ms) :: w.trace }

/-- `servo1.write(angle)`. -/
def HW.servo1W (w : HW) (a : Int) : HW :=
  { w with servo1 := a, trace := (w.time, Act.servo1Write a) :: w.trace }

/-- `servo2.write(angle)`. -/
def HW.servo2W (w : HW) (a : Int) : HW :=
  { w with servo2 := a, trace := (w.time, Act.servo2Write a) :: w.trace }

/-- `digitalWrite(PIN_LED, ...)` via `statusLed.solid`/`off`. -/
def HW.ledW (w : HW) (b : Bool) : HW :=
  { w with led := b, trace := (w.time, Act.ledWrite b) :: w.trace }

/-- `tone(PIN_BUZZER, freq, durn)`. -/
def HW.toneW (w : HW) (freq : Int) (durn : Nat) : HW :=
  { w with buzzer := true, trace := (w.time, Act.toneStart freq durn) :: w.trace }

/-- `noTone(PIN_BUZZER)`. -/
def HW.noToneW (w : HW) : HW :=
  { w with buzzer := false, trace := (w.time, Act.toneStop) :: w.trace }

/-- The generic `while (millis() - startTime < duration) { body }` shape of
the three deterrent phases, with explicit fuel.  For every profile admitted by
the theorems below each body iteration advances `millis()` by at least 2 ms,
so `duration + 1` units of fuel are never exhausted before the deadline. -/
def whileDeadline (start dur : Nat) (body : HW → HW) : Nat → HW → HW
  | 0, w => w
  | fuel + 1, w =>
      if usub32 w.time start < dur then whileDeadline start dur body fuel (body w)
      else w

/-- `delay(1000 / config.servoSpeed)`: the per-step delay of the servo sweep,
as the C `int` division converted to `unsigned long` (v2 firmware, lines
1112 and 1118). -/
def servoDelayUL (c : Config) : Nat := toUL (1000 / c.servoSpeed)

/-- One iteration body of either sweep `for` loop:
`servo1.write(pos); servo2.write(servoAngle - pos); delay(1000 / servoSpeed);`. -/
def servoStepW (c : Config) (pos : Int) (w : HW) : HW :=
  ((w.servo1W pos).servo2W (c.servoAngle - pos)).delayW (servoDelayUL c)

/-- `for (int pos = 0; pos <= servoAngle; pos += 5) { ...; if (deadline) break; }`
(v2 firmware, lines 1109-1114).  The fuel `(servoAngle/5)+1` equals the
iteration count of the C loop, so it is exhausted only after the final
position. -/
def sweepUp (c : Config) (start dur : Nat) : Nat → Int → HW → HW
  | 0, _, w => w
  | n + 1, pos, w =>
      if pos ≤ c.servoAngle then
        if dur ≤ usub32 (servoStepW c pos w).time start then servoStepW c pos w
        else sweepUp c start dur n (pos + 5) (servoStepW c pos w)
      else w

/-- `for (int pos = servoAngle; pos >= 0; pos -= 5) { ...; if (deadline) break; }`
(v2 firmware, lines 1115-1120). -/
def sweepDown (c : Config) (start dur : Nat) : Nat → Int → HW → HW
  | 0, _, w => w
  | n + 1, pos, w =>
      if 0 ≤ pos then
        if dur ≤ usub32 (servoStepW c pos w).time start then servoStepW c pos w
        else sweepDown c start dur n (pos - 5) (servoStepW c pos w)
      else w

/-- Fuel covering one full sweep of either direction. -/
def sweepFuel (c : Config) : Nat := (c.servoAngle / 5).toNat + 1

/-- One iteration of the outer `while` of `waveServos`: an ascending sweep
followed by a descending sweep (a `break` in the first `for` falls through to
the second `for`, which re-checks the deadline after one step). -/
def waveBody (c : Config) (start dur : Nat) (w : HW) : HW :=
  sweepDown c start dur (sweepFuel c) c.servoAngle
    (sweepUp c start dur (sweepFuel c) 0 w)

/-- `waveServos` (v2 firmware, lines 1104-1125): the deadline loop followed by
the unconditional return of both servos to the neutral 90 degrees. -/
def waveServos (c : Config) (w : HW) : HW :=
  ((whileDeadline w.time (toUL (c.servoDuration * 1000))
      (waveBody c w.time (toUL (c.servoDuration * 1000)))
      (toUL (c.servoDuration * 1000) + 1) w).servo1W 90).servo2W 90

/-- One iteration of the `flashLED` blink loop (v2 firmware, lines 1136-1141):
`solid(true); delay(ledSpeedMs); solid(false); delay(ledSpeedMs);`. -/
def flashBody (c : Config) (w : HW) : HW :=
  (((w.ledW true).delayW (toUL c.ledSpeedMs)).ledW false).delayW (toUL c.ledSpeedMs)

/-- `flashLED` (v2 firmware, lines 1127-1143). -/
def flashLED (c : Config) (w : HW) : HW :=
  if c.ledPattern = "solid" then
    ((w.ledW true).delayW (toUL (c.ledDurationSec * 1000))).ledW false
  else
    whileDeadline w.time (toUL (c.ledDurationSec * 1000)) (flashBody c)
      (toUL (c.ledDurationSec * 1000) + 1) w

/-- One iteration of the beep loop (v2 firmware, lines 1150-1152):
`tone(PIN_BUZZER, 1000, 200); delay(300);`. -/
def beepBody (w : HW) : HW := (w.toneW 1000 200).delayW 300

/-- `for (int freq = 500; freq < 1500; freq += 50) { tone(...); delay(20); }`
(v2 firmware, lines 1156-1159); 20 iterations, matching the fuel. -/
def sirenUp : Nat → Int → HW → HW
  | 0, _, w => w
  | n + 1, freq, w =>
      if freq < 1500 then sirenUp n (freq + 50) ((w.toneW freq 20).delayW 20)
      else w

/-- `for (int freq = 1500; freq > 500; freq -= 50) { tone(...); delay(20); }`
(v2 firmware, lines 1160-1163). -/
def sirenDown : Nat → Int → HW → HW
  | 0, _, w => w
  | n + 1, freq, w =>
      if 500 < freq then sirenDown n (freq - 50) ((w.toneW freq 20).delayW 20)
      else w

/-- One iteration of the siren loop: a rising then falling frequency ramp. -/
def sirenBody (w : HW) : HW := sirenDown 20 1500 (sirenUp 20 500 w)

/-- `playAlarm` (v2 firmware, lines 1145-1168), ending in the unconditional
`noTone(PIN_BUZZER)`. -/
def playAlarm (c : Config) (w : HW) : HW :=
  (if c.soundType = "beep" then
    whileDeadline w.time (toUL (c.soundDurationSec * 1000)) beepBody
      (toUL (c.soundDurationSec * 1000) + 1) w
  else if c.soundType = "siren" then
    whileDeadline w.time (toUL (c.soundDurationSec * 1000)) sirenBody
      (toUL (c.soundDurationSec * 1000) + 1) w
  else w).noToneW

/-- `activateDeterrent` (v2 firmware, lines 1096-1102): the three phases run
in sequence, each over its own configured duration. -/
def activateDeterrent (c : Config) (w : HW) : HW :=
  playAlarm c (flashLED c (waveServos c w))

/-- Idle hardware at time 0: servos neutral, LED and buzzer off. -/
def hwInit : HW :=
  { time := 0, servo1 := 90, servo2 := 90, led := false, buzzer := false
    trace := [] }

/-- Is some buzzer tone commanded at or after millisecond `t`? -/
def toneAfter (w : HW) (t : Nat) : Bool :=
  w.trace.any (fun p =>
    decide (t ≤ p.1) &&
      (match p.2 with | Act.toneStart _ _ => true | _ => false))

/-- A valid actuator profile with one-second phase durations. -/
def deterrentProfile : Config :=
  { loadConfigDefaults with
      servoDuration := 1, ledDurationSec := 1, soundDurationSec := 1 }

/-- C8 counterexample: with a valid profile (servo duration 1 s, LED duration
1 s, sound duration 1 s, servo speed 90, angle 180, blink, beep), the
sequencer still commands a buzzer tone at or after 2000 ms, although
`now + D + one servo sweep sub-cycle = 0 + 1000 + 814 < 2000` for the
configured duration `D = servoDuration * 1000`: the sequencer does not
terminate all actuator activity at a single wall-clock deadline `now + D`,
because the light and sound phases run after the servo phase, each on its own
duration. -/
theorem deterrent_not_single_deadline :
    toneAfter (activateDeterrent deterrentProfile hwInit) 2000 = true ∧
    toUL (deterrentProfile.servoDuration * 1000)
        + 2 * ((deterrentProfile.servoAngle / 5).toNat + 1)
          * servoDelayUL deterrentProfile
      < 2000 := by
  constructor
  · decide
  · decide

theorem whileDeadline_post (start dur : Nat) (body : HW → HW) (P : HW → Prop)
    (hbody : ∀ w, P (body w)) :
    ∀ fuel w, P w → P (whileDeadline start dur body fuel w)
  | 0, w, hw => hw
  | fuel + 1, w, hw => by
      unfold whileDeadline
      split
      · exact whileDeadline_post start dur body P hbody fuel (body w) (hbody w)
      · exact hw

theorem whileDeadline_post_of_cond (start dur : Nat) (body : HW → HW)
    (P : HW → Prop) (hbody : ∀ w, P (body w)) (fuel : Nat) (w : HW)
    (hfuel : 0 < fuel) (hcond : usub32 w.time start < dur) :
    P (whileDeadline start dur body fuel w) := by
  obtain ⟨f, rfl⟩ : ∃ f, fuel = f + 1 := ⟨fuel - 1, by omega⟩
  unfold whileDeadline
  rw [if_pos hcond]
  exact whileDeadline_post start dur body P hbody f (body w) (hbody w)

theorem whileDeadline_proj {α : Type} (start dur : Nat) (body : HW → HW)
    (f : HW → α) (hbody : ∀ w, f (body w) = f w) :
    ∀ fuel w, f (whileDeadline start dur body fuel w) = f w
  | 0, w => rfl
  | fuel + 1, w => by
      unfold whileDeadline
      split
      · rw [whileDeadline_proj start dur body f hbody fuel (body w), hbody w]
      · rfl

theorem whileDeadline_ub (start dur b : Nat) (body : HW → HW)
    (hbnd : ∀ w, start ≤ w.time → w.time ≤ start + dur + b →
      usub32 w.time start < dur →
      start ≤ (body w).time ∧ (body w).time ≤ start + dur + b) :
    ∀ fuel w, start ≤ w.time → w.time ≤ start + dur + b →
      start ≤ (whileDeadline start dur body fuel w).time ∧
      (whileDeadline start dur body fuel w).time ≤ start + dur + b
  | 0, w, h1, h2 => ⟨h1, h2⟩
  | fuel + 1, w, h1, h2 => by
      unfold whileDeadline
      split
      · rename_i hc
        have hb := hbnd w h1 h2 hc
        exact whileDeadline_ub start dur b body hbnd fuel (body w) hb.1 hb.2
      · exact ⟨h1, h2⟩

theorem servoStepW_time (c : Config) (pos : Int) (w : HW) :
    (servoStepW c pos w).time = w.time + servoDelayUL c := by
  simp [servoStepW, HW.servo1W, HW.servo2W, HW.delayW]

theorem servoStepW_led (c : Config) (pos : Int) (w : HW) :
    (servoStepW c pos w).led = w.led := by
  simp [servoStepW, HW.servo1W, HW.servo2W, HW.delayW]

theorem servoStepW_buzzer (c : Config) (pos : Int) (w : HW) :
    (servoStepW c pos w).buzzer = w.buzzer := by
  simp [servoStepW, HW.servo1W, HW.servo2W, HW.delayW]

theorem sweepUp_proj {α : Type} (c : Config) (start dur : Nat) (f : HW → α)
    (hstep : ∀ pos w, f (servoStepW c pos w) = f w) :
    ∀ n pos w, f (sweepUp c start dur n pos w) = f w
  | 0, _, w => rfl
  | n + 1, pos, w => by
      unfold sweepUp
      split
      · split
        · exact hstep pos w
        · rw [sweepUp_proj c start dur f hstep n (pos + 5) (servoStepW c pos w),
            hstep pos w]
      · rfl

theorem sweepDown_proj {α : Type} (c : Config) (start dur : Nat) (f : HW → α)
    (hstep : ∀ pos w, f (servoStepW c pos w) = f w) :
    ∀ n pos w, f (sweepDown c start dur n pos w) = f w
  | 0, _, w => rfl
  | n + 1, pos, w => by
      unfold sweepDown
      split
      · split
        · exact hstep pos w
        · rw [sweepDown_proj c start dur f hstep n (pos - 5) (servoStepW c pos w),
            hstep pos w]
      · rfl

theorem sweepUp_ub (c : Config) (start dur : Nat)
    (hsm : dur + servoDelayUL c < 2 ^ 32) :
    ∀ (n : Nat) (pos : Int) (w : HW), start ≤ w.time → w.time < start + dur →
      start ≤ (sweepUp c start dur n pos w).time ∧
      (sweepUp c start dur n pos w).time < start + dur + servoDelayUL c
  | 0, _, w, h1, h2 => by
      unfold sweepUp
      exact ⟨h1, by omega⟩
  | n + 1, pos, w, h1, h2 => by
      unfold sweepUp
      split
      · have ht := servoStepW_time c pos w
        split
        · omega
        · rename_i hc
          apply sweepUp_ub c start dur hsm n (pos + 5) (servoStepW c pos w)
          · omega
          · push_neg at hc
            rw [usub32] at hc
            rw [ht] at hc ⊢
            have hmod : (w.time + servoDelayUL c - start) % 2 ^ 32
                = w.time + servoDelayUL c - start := Nat.mod_eq_of_lt (by omega)
            omega
      · exact ⟨h1, by omega⟩

theorem sweepDown_ub (c : Config) (start dur : Nat)
    (hsm : dur + 2 * servoDelayUL c < 2 ^ 32) :
    ∀ (n : Nat) (pos : Int) (w : HW), start ≤ w.time →
      w.time < start + dur + servoDelayUL c →
      start ≤ (sweepDown c start dur n pos w).time ∧
      (sweepDown c start dur n pos w).time < start + dur + 2 * servoDelayUL c
  | 0, _, w, h1, h2 => by
      unfold sweepDown
      exact ⟨h1, by omega⟩
  | n + 1, pos, w, h1, h2 => by
      unfold sweepDown
      split
      · have ht := servoStepW_time c pos w
        split
        · omega
        · rename_i hc
          apply sweepDown_ub c start dur hsm n (pos - 5) (servoStepW c pos w)
          · omega
          · push_neg at hc
            rw [usub32] at hc
            rw [ht] at hc ⊢
            have hmod : (w.time + servoDelayUL c - start) % 2 ^ 32
                = w.time + servoDelayUL c - start := Nat.mod_eq_of_lt (by omega)
            omega
      · exact ⟨h1, by omega⟩

theorem waveBody_ub (c : Config) (start dur : Nat)
    (hsm : dur + 2 * servoDelayUL c < 2 ^ 32) (w : HW)
    (h1 : start ≤ w.time) (h2 : w.time ≤ start + dur + 2 * servoDelayUL c)
    (hc : usub32 w.time start < dur) :
    start ≤ (waveBody c start dur w).time ∧
    (waveBody c start dur w).time ≤ start + dur + 2 * servoDelayUL c := by
  have hlt : w.time < start + dur := by
    rw [usub32] at hc
    have hmod : (w.time - start) % 2 ^ 32 = w.time - start :=
      Nat.mod_eq_of_lt (by omega)
    omega
  have hup := sweepUp_ub c start dur (by omega) (sweepFuel c) 0 w h1 hlt
  have hdown := sweepDown_ub c start dur hsm (sweepFuel c) c.servoAngle
    (sweepUp c start dur (sweepFuel c) 0 w) hup.1 hup.2
  exact ⟨hdown.1, by unfold waveBody; omega⟩

theorem waveBody_led (c : Config) (start dur : Nat) (w : HW) :
    (waveBody c start dur w).led = w.led := by
  unfold waveBody
  rw [sweepDown_proj c start dur (fun x => x.led) (servoStepW_led c)
      (sweepFuel c) c.servoAngle,
    sweepUp_proj c start dur (fun x => x.led) (servoStepW_led c)
      (sweepFuel c) 0]

theorem waveBody_buzzer (c : Config) (start dur : Nat) (w : HW) :
    (waveBody c start dur w).buzzer = w.buzzer := by
  unfold waveBody
  rw [sweepDown_proj c start dur (fun x => x.buzzer) (servoStepW_buzzer c)
      (sweepFuel c) c.servoAngle,
    sweepUp_proj c start dur (fun x => x.buzzer) (servoStepW_buzzer c)
      (sweepFuel c) 0]

theorem waveServos_spec (c : Config) (w : HW)
    (hsm : toUL (c.servoDuration * 1000) + 2 * servoDelayUL c < 2 ^ 32) :
    (waveServos c w).servo1 = 90 ∧ (waveServos c w).servo2 = 90 ∧
    (waveServos c w).led = w.led ∧ (waveServos c w).buzzer = w.buzzer ∧
    (waveServos c w).time
      ≤ w.time + toUL (c.servoDuration * 1000) + 2 * servoDelayUL c := by
  have hwd := whileDeadline_ub w.time (toUL (c.servoDuration * 1000))
    (2 * servoDelayUL c) (waveBody c w.time (toUL (c.servoDuration * 1000)))
    (fun w' h1 h2 hc =>
      waveBody_ub c w.time (toUL (c.servoDuration * 1000)) hsm w' h1 h2 hc)
    (toUL (c.servoDuration * 1000) + 1) w le_rfl (by omega)
  have hled := whileDeadline_proj w.time (toUL (c.servoDuration * 1000))
    (waveBody c w.time (toUL (c.servoDuration * 1000))) (fun x => x.led)
    (waveBody_led c w.time (toUL (c.servoDuration * 1000)))
    (toUL (c.servoDuration * 1000) + 1) w
  have hbuz := whileDeadline_proj w.time (toUL (c.servoDuration * 1000))
    (waveBody c w.time (toUL (c.servoDuration * 1000))) (fun x => x.buzzer)
    (waveBody_buzzer c w.time (toUL (c.servoDuration * 1000)))
    (toUL (c.servoDuration * 1000) + 1) w
  refine ⟨?_, ?_, ?_, ?_, ?_⟩
  · simp [waveServos, HW.servo1W, HW.servo2W]
  · simp [waveServos, HW.servo1W, HW.servo2W]
  · simp only [waveServos, HW.servo1W, HW.servo2W]
    exact hled
  · simp only [waveServos, HW.servo1W, HW.servo2W]
    exact hbuz
  · simp only [waveServos, HW.servo1W, HW.servo2W]
    omega

theorem flashBody_time (c : Config) (w : HW) :
    (flashBody c w).time = w.time + 2 * toUL c.ledSpeedMs := by
  simp [flashBody, HW.ledW, HW.delayW]
  ring

theorem flashBody_led (c : Config) (w : HW) : (flashBody c w).led = false := by
  simp [flashBody, HW.ledW, HW.delayW]

theorem flashBody_servo1 (c : Config) (w : HW) :
    (flashBody c w).servo1 = w.servo1 := by
  simp [flashBody, HW.ledW, HW.delayW]

theorem flashBody_servo2 (c : Config) (w : HW) :
    (flashBody c w).servo2 = w.servo2 := by
  simp [flashBody, HW.ledW, HW.delayW]

theorem flashBody_buzzer (c : Config) (w : HW) :
    (flashBody c w).buzzer = w.buzzer := by
  simp [flashBody, HW.ledW, HW.delayW]

theorem usub32_self (a : Nat) : usub32 a a = 0 := by
  simp [usub32]

theorem flashLED_spec (c : Config) (w : HW)
    (hdur : 0 < toUL (c.ledDurationSec * 1000))
    (hsm : toUL (c.ledDurationSec * 1000) + 2 * toUL c.ledSpeedMs < 2 ^ 32) :
    (flashLED c w).led = false ∧
    (flashLED c w).servo1 = w.servo1 ∧ (flashLED c w).servo2 = w.servo2 ∧
    (flashLED c w).buzzer = w.buzzer ∧
    (flashLED c w).time
      ≤ w.time + toUL (c.ledDurationSec * 1000) + 2 * toUL c.ledSpeedMs := by
  unfold flashLED
  split
  · refine ⟨?_, ?_, ?_, ?_, ?_⟩ <;> simp [HW.ledW, HW.delayW]
  · have hbnd : ∀ w', w.time ≤ w'.time →
        w'.time ≤ w.time + toUL (c.ledDurationSec * 1000) + 2 * toUL c.ledSpeedMs →
        usub32 w'.time w.time < toUL (c.ledDurationSec * 1000) →
        w.time ≤ (flashBody c w').time ∧
        (flashBody c w').time
          ≤ w.time + toUL (c.ledDurationSec * 1000) + 2 * toUL c.ledSpeedMs := by
      intro w' h1 h2 hc
      rw [usub32] at hc
      have hmod : (w'.time - w.time) % 2 ^ 32 = w'.time - w.time :=
        Nat.mod_eq_of_lt (by omega)
      have ht := flashBody_time c w'
      omega
    have hwd := whileDeadline_ub w.time (toUL (c.ledDurationSec * 1000))
      (2 * toUL c.ledSpeedMs) (flashBody c) hbnd
      (toUL (c.ledDurationSec * 1000) + 1) w le_rfl (by omega)
    refine ⟨?_, ?_, ?_, ?_, hwd.2⟩
    · exact whileDeadline_post_of_cond w.time (toUL (c.ledDurationSec * 1000))
        (flashBody c) (fun x => x.led = false) (flashBody_led c) _ w
        (by omega) (by rw [usub32_self]; exact hdur)
    · exact whileDeadline_proj w.time (toUL (c.ledDurationSec * 1000))
        (flashBody c) (fun x => x.servo1) (flashBody_servo1 c) _ w
    · exact whileDeadline_proj w.time (toUL (c.ledDurationSec * 1000))
        (flashBody c) (fun x => x.servo2) (flashBody_servo2 c) _ w
    · exact whileDeadline_proj w.time (toUL (c.ledDurationSec * 1000))
        (flashBody c) (fun x => x.buzzer) (flashBody_buzzer c) _ w

theorem beepBody_time (w : HW) : (beepBody w).time = w.time + 300 := by
  simp [beepBody, HW.toneW, HW.delayW]

theorem sirenUp_time_le : ∀ (n : Nat) (freq : Int) (w : HW),
    (sirenUp n freq w).time ≤ w.time + 20 * n
  | 0, _, w => by
      unfold sirenUp
      omega
  | n + 1, freq, w => by
      unfold sirenUp
      split
      · have h := sirenUp_time_le n (freq + 50) ((w.toneW freq 20).delayW 20)
        have ht : ((w.toneW freq 20).delayW 20).time = w.time + 20 := by
          simp [HW.toneW, HW.delayW]
        omega
      · omega

theorem sirenDown_time_le : ∀ (n : Nat) (freq : Int) (w : HW),
    (sirenDown n freq w).time ≤ w.time + 20 * n
  | 0, _, w => by
      unfold sirenDown
      omega
  | n + 1, freq, w => by
      unfold sirenDown
      split
      · have h := sirenDown_time_le n (freq - 50) ((w.toneW freq 20).delayW 20)
        have ht : ((w.toneW freq 20).delayW 20).time = w.time + 20 := by
          simp [HW.toneW, HW.delayW]
        omega
      · omega

theorem sirenUp_time_ge : ∀ (n : Nat) (freq : Int) (w : HW),
    w.time ≤ (sirenUp n freq w).time
  | 0, _, w => by
      unfold sirenUp
      omega
  | n + 1, freq, w => by
      unfold sirenUp
      split
      · have h := sirenUp_time_ge n (freq + 50) ((w.toneW freq 20).delayW 20)
        have ht : ((w.toneW freq 20).delayW 20).time = w.time + 20 := by
          simp [HW.toneW, HW.delayW]
        omega
      · omega

theorem sirenDown_time_ge : ∀ (n : Nat) (freq : Int) (w : HW),
    w.time ≤ (sirenDown n freq w).time
  | 0, _, w => by
      unfold sirenDown
      omega
  | n + 1, freq, w => by
      unfold sirenDown
      split
      · have h := sirenDown_time_ge n (freq - 50) ((w.toneW freq 20).delayW 20)
        have ht : ((w.toneW freq 20).delayW 20).time = w.time + 20 := by
          simp [HW.toneW, HW.delayW]
        omega
      · omega

theorem sirenBody_time_le (w : HW) : (sirenBody w).time ≤ w.time + 800 := by
  unfold sirenBody
  have h1 := sirenUp_time_le 20 500 w
  have h2 := sirenDown_time_le 20 1500 (sirenUp 20 500 w)
  omega

theorem sirenBody_time_ge (w : HW) : w.time ≤ (sirenBody w).time := by
  unfold sirenBody
  have h1 := sirenUp_time_ge 20 500 w
  have h2 := sirenDown_time_ge 20 1500 (sirenUp 20 500 w)
  omega

theorem sirenUp_proj {α : Type} (f : HW → α)
    (hstep : ∀ (w : HW) (fr : Int), f ((w.toneW fr 20).delayW 20) = f w) :
    ∀ (n : Nat) (freq : Int) (w : HW), f (sirenUp n freq w) = f w
  | 0, _, _ => rfl
  | n + 1, freq, w => by
      unfold sirenUp
      split
      · rw [sirenUp_proj f hstep n (freq + 50) ((w.toneW freq 20).delayW 20),
          hstep w freq]
      · rfl

theorem sirenDown_proj {α : Type} (f : HW → α)
    (hstep : ∀ (w : HW) (fr : Int), f ((w.toneW fr 20).delayW 20) = f w) :
    ∀ (n : Nat) (freq : Int) (w : HW), f (sirenDown n freq w) = f w
  | 0, _, _ => rfl
  | n + 1, freq, w => by
      unfold sirenDown
      split
      · rw [sirenDown_proj f hstep n (freq - 50) ((w.toneW freq 20).delayW 20),
          hstep w freq]
      · rfl

theorem sirenBody_led (w : HW) : (sirenBody w).led = w.led := by
  unfold sirenBody
  rw [sirenDown_proj (fun x => x.led)
      (fun w' fr => by simp [HW.toneW, HW.delayW]) 20 1500,
    sirenUp_proj (fun x => x.led)
      (fun w' fr => by simp [HW.toneW, HW.delayW]) 20 500]

theorem sirenBody_servo1 (w : HW) : (sirenBody w).servo1 = w.servo1 := by
  unfold sirenBody
  rw [sirenDown_proj (fun x => x.servo1)
      (fun w' fr => by simp [HW.toneW, HW.delayW]) 20 1500,
    sirenUp_proj (fun x => x.servo1)
      (fun w' fr => by simp [HW.toneW, HW.delayW]) 20 500]

theorem sirenBody_servo2 (w : HW) : (sirenBody w).servo2 = w.servo2 := by
  unfold sirenBody
  rw [sirenDown_proj (fun x => x.servo2)
      (fun w' fr => by simp [HW.toneW, HW.delayW]) 20 1500,
    sirenUp_proj (fun x => x.servo2)
      (fun w' fr => by simp [HW.toneW, HW.delayW]) 20 500]

theorem playAlarm_spec (c : Config) (w : HW)
    (hsm : toUL (c.soundDurationSec * 1000) + 800 < 2 ^ 32) :
    (playAlarm c w).buzzer = false ∧
    (playAlarm c w).led = w.led ∧
    (playAlarm c w).servo1 = w.servo1 ∧ (playAlarm c w).servo2 = w.servo2 ∧
    (playAlarm c w).time ≤ w.time + toUL (c.soundDurationSec * 1000) + 800 := by
  have hbeep : ∀ w', w.time ≤ w'.time →
      w'.time ≤ w.time + toUL (c.soundDurationSec * 1000) + 800 →
      usub32 w'.time w.time < toUL (c.soundDurationSec * 1000) →
      w.time ≤ (beepBody w').time ∧
      (beepBody w').time ≤ w.time + toUL (c.soundDurationSec * 1000) + 800 := by
    intro w' h1 h2 hc
    rw [usub32] at hc
    have hmod : (w'.time - w.time) % 2 ^ 32 = w'.time - w.time :=
      Nat.mod_eq_of_lt (by omega)
    have ht := beepBody_time w'
    omega
  have hsiren : ∀ w', w.time ≤ w'.time →
      w'.time ≤ w.time + toUL (c.soundDurationSec * 1000) + 800 →
      usub32 w'.time w.time < toUL (c.soundDurationSec * 1000) →
      w.time ≤ (sirenBody w').time ∧
      (sirenBody w').time ≤ w.time + toUL (c.soundDurationSec * 1000) + 800 := by
    intro w' h1 h2 hc
    rw [usub32] at hc
    have hmod : (w'.time - w.time) % 2 ^ 32 = w'.time - w.time :=
      Nat.mod_eq_of_lt (by omega)
    have ht1 := sirenBody_time_le w'
    have ht2 := sirenBody_time_ge w'
    omega
  unfold playAlarm
  refine ⟨by simp [HW.noToneW], ?_, ?_, ?_, ?_⟩
  · simp only [HW.noToneW]
    split
    · exact whileDeadline_proj w.time (toUL (c.soundDurationSec * 1000))
        beepBody (fun x => x.led)
        (fun w' => by simp [beepBody, HW.toneW, HW.delayW]) _ w
    · split
      · exact whileDeadline_proj w.time (toUL (c.soundDurationSec * 1000))
          sirenBody (fun x => x.led) sirenBody_led _ w
      · rfl
  · simp only [HW.noToneW]
    split
    · exact whileDeadline_proj w.time (toUL (c.soundDurationSec * 1000))
        beepBody (fun x => x.servo1)
        (fun w' => by simp [beepBody, HW.toneW, HW.delayW]) _ w
    · split
      · exact whileDeadline_proj w.time (toUL (c.soundDurationSec * 1000))
          sirenBody (fun x => x.servo1) sirenBody_servo1 _ w
      · rfl
  · simp only [HW.noToneW]
    split
    · exact whileDeadline_proj w.time (toUL (c.soundDurationSec * 1000))
        beepBody (fun x => x.servo2)
        (fun w' => by simp [beepBody, HW.toneW, HW.delayW]) _ w
    · split
      · exact whileDeadline_proj w.time (toUL (c.soundDurationSec * 1000))
          sirenBody (fun x => x.servo2) sirenBody_servo2 _ w
      · rfl
  · simp only [HW.noToneW]
    split
    · exact (whileDeadline_ub w.time (toUL (c.soundDurationSec * 1000)) 800
        beepBody hbeep (toUL (c.soundDurationSec * 1000) + 1) w le_rfl
        (by omega)).2
    · split
      · exact (whileDeadline_ub w.time (toUL (c.soundDurationSec * 1000)) 800
          sirenBody hsiren (toUL (c.soundDurationSec * 1000) + 1) w le_rfl
          (by omega)).2
      · omega

/-- C8 amended: for every valid actuator profile, each deterrent phase honors
its *own* configured duration — the servo phase ends within one sweep step
pair (`2 * (1000/servoSpeed)` ms) of `start + servoDuration`, the light phase
within one blink sub-cycle (`2 * ledSpeedMs`) of `start + ledDurationSec`, the
alarm phase within one beep/siren sub-cycle (≤ 800 ms) of
`start + soundDurationSec` — and every actuator is back in its neutral state
(both servos at 90 degrees, LED off, buzzer off) when `activateDeterrent`
returns; the whole sequencer returns within the *sum* of the three configured
durations plus those bounded per-phase overheads (not within a single
duration `D`, which the counterexample refutes). -/
theorem deterrent_phase_deadlines_neutral_return (c : Config) (w : HW)
    (hsp1 : 1 ≤ c.servoSpeed) (hsp2 : c.servoSpeed ≤ 1000)
    (hsd1 : 1 ≤ c.servoDuration) (hsd2 : c.servoDuration ≤ 60)
    (hls1 : 1 ≤ c.ledSpeedMs) (hls2 : c.ledSpeedMs ≤ 10000)
    (hld1 : 1 ≤ c.ledDurationSec) (hld2 : c.ledDurationSec ≤ 60)
    (had1 : 1 ≤ c.soundDurationSec) (had2 : c.soundDurationSec ≤ 60) :
    (waveServos c w).servo1 = 90 ∧ (waveServos c w).servo2 = 90 ∧
    (waveServos c w).time
      ≤ w.time + toUL (c.servoDuration * 1000) + 2 * servoDelayUL c ∧
    (flashLED c w).led = false ∧
    (flashLED c w).time
      ≤ w.time + toUL (c.ledDurationSec * 1000) + 2 * toUL c.ledSpeedMs ∧
    (playAlarm c w).buzzer = false ∧
    (playAlarm c w).time ≤ w.time + toUL (c.soundDurationSec * 1000) + 800 ∧
    (activateDeterrent c w).servo1 = 90 ∧
    (activateDeterrent c w).servo2 = 90 ∧
    (activateDeterrent c w).led = false ∧
    (activateDeterrent c w).buzzer = false ∧
    (activateDeterrent c w).time
      ≤ w.time + toUL (c.servoDuration * 1000) + toUL (c.ledDurationSec * 1000)
        + toUL (c.soundDurationSec * 1000)
        + (2 * servoDelayUL c + 2 * toUL c.ledSpeedMs + 800) := by
  have hstep : servoDelayUL c ≤ 1000 := by
    have hnn : (0 : Int) ≤ 1000 / c.servoSpeed :=
      Int.ediv_nonneg (by norm_num) (by omega)
    have hle : (1000 : Int) / c.servoSpeed ≤ 1000 :=
      Int.ediv_le_self _ (by norm_num)
    unfold servoDelayUL
    rw [toUL_of_nonneg _ hnn (by omega)]
    omega
  have hdS : toUL (c.servoDuration * 1000) ≤ 60000 := by
    rw [toUL_of_nonneg _ (by omega) (by omega)]
    omega
  have hdL1 : 1000 ≤ toUL (c.ledDurationSec * 1000) := by
    rw [toUL_of_nonneg _ (by omega) (by omega)]
    omega
  have hdL2 : toUL (c.ledDurationSec * 1000) ≤ 60000 := by
    rw [toUL_of_nonneg _ (by omega) (by omega)]
    omega
  have hspd : toUL c.ledSpeedMs ≤ 10000 := by
    rw [toUL_of_nonneg _ (by omega) (by omega)]
    omega
  have hdA : toUL (c.soundDurationSec * 1000) ≤ 60000 := by
    rw [toUL_of_nonneg _ (by omega) (by omega)]
    omega
  have hW := waveServos_spec c w (by omega)
  have hF0 := flashLED_spec c w (by omega) (by omega)
  have hF := flashLED_spec c (waveServos c w) (by omega) (by omega)
  have hA0 := playAlarm_spec c w (by omega)
  have hA := playAlarm_spec c (flashLED c (waveServos c w)) (by omega)
  obtain ⟨hWs1, hWs2, hWled, hWbuz, hWt⟩ := hW
  obtain ⟨hFled, hFs1, hFs2, hFbuz, hFt⟩ := hF
  obtain ⟨hAbuz, hAled, hAs1, hAs2, hAt⟩ := hA
  refine ⟨hWs1, hWs2, hWt, hF0.1, hF0.2.2.2.2, hA0.1, hA0.2.2.2.2,
    ?_, ?_, ?_, ?_, ?_⟩
  · show (playAlarm c (flashLED c (waveServos c w))).servo1 = 90
    rw [hAs1, hFs1, hWs1]
  · show (playAlarm c (flashLED c (waveServos c w))).servo2 = 90
    rw [hAs2, hFs2, hWs2]
  · show (playAlarm c (flashLED c (waveServos c w))).led = false
    rw [hAled, hFled]
  · exact hAbuz
  · show (playAlarm c (flashLED c (waveServos c w))).time ≤ _
    omega

/-- C8 witness: the amended guarantees instantiated on a concrete valid
profile (1 s per phase) from the idle state. -/
theorem deterrent_phase_deadlines_neutral_return_witness :
    (activateDeterrent deterrentProfile hwInit).servo1 = 90 ∧
    (activateDeterrent deterrentProfile hwInit).servo2 = 90 ∧
    (activateDeterrent deterrentProfile hwInit).led = false ∧
    (activateDeterrent deterrentProfile hwInit).buzzer = false ∧
    (activateDeterrent deterrentProfile hwInit).time
      ≤ hwInit.time + toUL (deterrentProfile.servoDuration * 1000)
        + toUL (deterrentProfile.ledDurationSec * 1000)
        + toUL (deterrentProfile.soundDurationSec * 1000)
        + (2 * servoDelayUL deterrentProfile
           + 2 * toUL deterrentProfile.ledSpeedMs + 800) := by
  obtain ⟨-, -, -, -, -, -, -, h1, h2, h3, h4, h5⟩ :=
    deterrent_phase_deadlines_neutral_return deterrentProfile hwInit
      (by decide) (by decide) (by decide) (by decide) (by decide)
      (by decide) (by decide) (by decide) (by decide) (by decide)
  exact ⟨h1, h2, h3, h4, h5⟩
